import Mathlib

/-!
Verification of the code-quality scoring engine and metric-extraction
pipeline of the analyzer (src/src/analyzer.py).

Numeric values are embedded as exact rationals (ℚ).  Python's
`round(x, 2)` (round-half-to-even at two decimal digits) is modelled by
`round2`.  External capabilities — file reading, `ast.parse`, radon's
`cc_visit` and `mi_visit`, and the flake8 subprocess — are passed in as
explicit parameters (`Option` for the fallible ones), exactly at the
boundaries where `analyze_file` consumes their results.
-/

namespace Analyzer

/-- Round-half-to-even to the nearest integer, the rounding mode of
Python's builtin `round`. -/
def roundHalfEven (q : ℚ) : ℤ :=
  let f := ⌊q⌋
  let frac := q - f
  if frac < 1/2 then f
  else if 1/2 < frac then f + 1
  else if f % 2 = 0 then f else f + 1

/-- Python's `round(x, 2)`: round to two decimal digits, ties to even. -/
def round2 (q : ℚ) : ℚ := (roundHalfEven (q * 100) : ℚ) / 100

/-- The raw-metrics bundle passed to `_calculate_score` (the `metrics`
dict built at analyzer.py:106-116). -/
structure RawMetrics where
  pep8_errors : ℚ
  pep8_warnings : ℚ
  avg_complexity : ℚ
  max_complexity : ℚ
  maintainability : ℚ
  docstring_coverage : ℚ
  comment_density : ℚ
  deriving DecidableEq, Repr

/-- `CodeAnalyzer._calculate_score` (analyzer.py:214-243): base 100,
capped penalties and bonuses, final clamp to [0, 100]. -/
def calculateScore (m : RawMetrics) : ℚ :=
  let s1 := 100 - min (m.pep8_errors * 2) 30
  let s2 := s1 - min (m.pep8_warnings * (1/2)) 10
  let s3 := if m.max_complexity > 10 then s2 - min ((m.max_complexity - 10) * 2) 20 else s2
  let s4 := if m.avg_complexity > 5 then s3 - min ((m.avg_complexity - 5) * 1) 10 else s3
  let s5 := if m.maintainability > 80 then s4 + 5
            else if m.maintainability < 40 then s4 - 10 else s4
  let s6 := s5 + min (m.docstring_coverage * (15/100)) 15
  let s7 := if 5 ≤ m.comment_density ∧ m.comment_density ≤ 20 then s6 + 5
            else if m.comment_density < 2 then s6 - 5 else s6
  max 0 (min 100 s7)

/-- The 8-step rubric exactly as the specification words it (spec §4.2):
one arithmetic expression, penalties subtracted and bonuses added from a
base of 100, then clamped.  Stated independently of `calculateScore` so
the two can be compared. -/
def specRubricScore (m : RawMetrics) : ℚ :=
  max 0 (min 100
    (100
      - min (m.pep8_errors * 2) 30
      - min (m.pep8_warnings * (1/2)) 10
      - (if m.max_complexity > 10 then min ((m.max_complexity - 10) * 2) 20 else 0)
      - (if m.avg_complexity > 5 then min ((m.avg_complexity - 5) * 1) 10 else 0)
      + (if m.maintainability > 80 then 5
         else if m.maintainability < 40 then (-10) else 0)
      + min (m.docstring_coverage * (15/100)) 15
      + (if 5 ≤ m.comment_density ∧ m.comment_density ≤ 20 then 5
         else if m.comment_density < 2 then (-5) else 0)))

/-- Python's `code.split("\n")` (analyzer.py:68, 206): split into
newline-delimited segments, keeping empty and trailing segments, so the
empty string yields `[""]`. -/
def splitLinesAux : List Char → List Char → List String
  | [], acc => [String.mk acc.reverse]
  | c :: cs, acc =>
      if c = '\n' then String.mk acc.reverse :: splitLinesAux cs []
      else splitLinesAux cs (c :: acc)

def splitLines (code : String) : List String := splitLinesAux code.data []

/-- `line.strip().startswith("#")` (analyzer.py:211): after trimming
leading whitespace, the first character is the comment marker. -/
def isCommentLine (line : String) : Bool :=
  match line.data.dropWhile Char.isWhitespace with
  | [] => false
  | c :: _ => c = '#'

/-- `CodeAnalyzer._calculate_comment_density` (analyzer.py:204-212). -/
def calculateCommentDensity (code : String) : ℚ :=
  let lines := splitLines code
  let totalLines := lines.length
  if totalLines = 0 then 0
  else (((lines.filter isCommentLine).length : ℚ) / totalLines) * 100

/-- The Python AST as consumed by the analyzer: `ast.walk` only ever
distinguishes `FunctionDef` and `ClassDef` nodes from everything else,
and `ast.get_docstring` on those nodes is modelled by the `doc` field
(`none` when the entity has no docstring).  Every other node kind is
`other`, keeping only its child list. -/
inductive PyNode where
  | functionDef (doc : Option String) (body : List PyNode)
  | classDef (doc : Option String) (body : List PyNode)
  | other (children : List PyNode)

/-- `isinstance(n, ast.FunctionDef)`. -/
def PyNode.isFunctionDef : PyNode → Bool
  | .functionDef _ _ => true
  | _ => false

/-- `isinstance(n, ast.ClassDef)`. -/
def PyNode.isClassDef : PyNode → Bool
  | .classDef _ _ => true
  | _ => false

/-- `docstring = ast.get_docstring(node); docstring and
len(docstring.strip()) > 0` (analyzer.py:198-199). -/
def PyNode.hasNonemptyDoc : PyNode → Bool
  | .functionDef (some d) _ => !d.trim.isEmpty
  | .classDef (some d) _ => !d.trim.isEmpty
  | _ => false

mutual

/-- `ast.walk(tree)`: the node itself and all its descendants (the real
walk is breadth-first; the analyzer only counts over the result, so the
order is irrelevant and a depth-first enumeration is used). -/
def walk : PyNode → List PyNode
  | .functionDef d body => .functionDef d body :: walkList body
  | .classDef d body => .classDef d body :: walkList body
  | .other children => .other children :: walkList children

def walkList : List PyNode → List PyNode
  | [] => []
  | n :: ns => walk n ++ walkList ns

end

/-- `len([n for n in ast.walk(tree) if isinstance(n, ast.FunctionDef)])`
(analyzer.py:69). -/
def countFuncs (tree : PyNode) : ℕ := ((walk tree).filter PyNode.isFunctionDef).length

/-- `len([n for n in ast.walk(tree) if isinstance(n, ast.ClassDef)])`
(analyzer.py:70). -/
def countClasses (tree : PyNode) : ℕ := ((walk tree).filter PyNode.isClassDef).length

/-- `CodeAnalyzer._calculate_docstring_coverage` (analyzer.py:186-202):
the numerator walks the tree counting function/class nodes with a
non-empty docstring; the denominator is the caller-supplied
`num_funcs + num_classes`, with 100.0 returned when it is zero. -/
def calculateDocstringCoverage (tree : PyNode) (numFuncs numClasses : ℕ) : ℚ :=
  let totalEntities := numFuncs + numClasses
  if totalEntities = 0 then 100
  else
    let entitiesWithDoc :=
      ((walk tree).filter
        (fun n => (n.isFunctionDef || n.isClassDef) && n.hasNonemptyDoc)).length
    ((entitiesWithDoc : ℚ) / (totalEntities : ℚ)) * 100

/-- `os.path.basename`: the final path component. -/
def basename (p : String) : String :=
  String.mk (p.data.reverse.takeWhile (fun c => c ≠ '/')).reverse

/-- The `CodeMetrics` dataclass (analyzer.py:16-31). -/
structure CodeMetrics where
  filename : String
  lines_of_code : ℕ
  num_functions : ℕ
  num_classes : ℕ
  avg_complexity : ℚ
  max_complexity : ℤ
  maintainability_index : ℚ
  pep8_errors : ℕ
  pep8_warnings : ℕ
  docstring_coverage : ℚ
  comment_density : ℚ
  score : ℚ
  deriving DecidableEq, Repr

/-- `CodeAnalyzer._create_error_metrics` (analyzer.py:245-261); the
diagnostic message is printed, not stored, hence unused here. -/
def createErrorMetrics (filename : String) (_errorMsg : String) : CodeMetrics :=
  { filename := basename filename
    lines_of_code := 0
    num_functions := 0
    num_classes := 0
    avg_complexity := 0
    max_complexity := 0
    maintainability_index := 0
    pep8_errors := 100
    pep8_warnings := 0
    docstring_coverage := 0
    comment_density := 0
    score := 0 }

/-- `sum(complexities) / len(complexities) if complexities else 0`
(analyzer.py:76-78). -/
def avgOrZero (cs : List ℤ) : ℚ :=
  match cs with
  | [] => 0
  | _ => ((cs.sum : ℚ) / (cs.length : ℚ))

/-- `max(complexities) if complexities else 0` (analyzer.py:79). -/
def maxOrZero (cs : List ℤ) : ℤ :=
  match cs with
  | [] => 0
  | x :: xs => xs.foldl max x

/-- Average complexity from the `cc_visit` result: the except branch
(analyzer.py:80-82) degrades to 0. -/
def ccAvgOf : Option (List ℤ) → ℚ
  | some cs => avgOrZero cs
  | none => 0

/-- Maximum complexity from the `cc_visit` result: the except branch
degrades to 0. -/
def ccMaxOf : Option (List ℤ) → ℤ
  | some cs => maxOrZero cs
  | none => 0

/-- Maintainability from the `mi_visit` result: the non-numeric and
except branches (analyzer.py:85-92) degrade to 0.0. -/
def miOf : Option ℚ → ℚ
  | some m => m
  | none => 0

/-- The raw-metrics dict built at analyzer.py:106-116 from the
pre-rounding measurements. -/
def rawMetricsOf (pep8Errors pep8Warnings : ℕ) (avgComplexity : ℚ)
    (maxComplexity : ℤ) (miScore coverage density : ℚ) : RawMetrics :=
  { pep8_errors := (pep8Errors : ℚ)
    pep8_warnings := (pep8Warnings : ℚ)
    avg_complexity := avgComplexity
    max_complexity := (maxComplexity : ℚ)
    maintainability := miScore
    docstring_coverage := coverage
    comment_density := density }

/-- `CodeAnalyzer.analyze_file` from the point where the source text is
in hand (analyzer.py:62-131).  External capabilities enter as
parameters: `parseResult` is `ast.parse` (`none` = SyntaxError branch,
line 62-65), `ccResult` is radon's `cc_visit` complexity list (`none` =
the except branch, lines 80-82), `miResult` is `mi_visit` (`none` = the
non-numeric/except branches, lines 89-92), and `pep8` is the flake8
`(errors, warnings)` pair from `_run_pep8_check`. -/
def analyzeSource (filepath : String) (code : String)
    (parseResult : Option PyNode) (ccResult : Option (List ℤ))
    (miResult : Option ℚ) (pep8 : ℕ × ℕ) : CodeMetrics :=
  match parseResult with
  | none => createErrorMetrics filepath "Syntax Error"
  | some tree =>
      let loc := (splitLines code).length
      let numFuncs := countFuncs tree
      let numClasses := countClasses tree
      let avgComplexity := ccAvgOf ccResult
      let maxComplexity := ccMaxOf ccResult
      let miScore := miOf miResult
      let pep8Errors := pep8.1
      let pep8Warnings := pep8.2
      let coverage := calculateDocstringCoverage tree numFuncs numClasses
      let density := calculateCommentDensity code
      let score := calculateScore
        (rawMetricsOf pep8Errors pep8Warnings avgComplexity maxComplexity
          miScore coverage density)
      { filename := basename filepath
        lines_of_code := loc
        num_functions := numFuncs
        num_classes := numClasses
        avg_complexity := round2 avgComplexity
        max_complexity := maxComplexity
        maintainability_index := round2 miScore
        pep8_errors := pep8Errors
        pep8_warnings := pep8Warnings
        docstring_coverage := round2 coverage
        comment_density := round2 density
        score := round2 score }

/-- `CodeAnalyzer.analyze_file` including the file-reading prologue
(analyzer.py:46-60): `readResult = none` models every read/decode
failure (FileNotFoundError, encoding failure, other read errors), each
of which returns an error record. -/
def analyzeFile (filepath : String) (readResult : Option String)
    (parseResult : Option PyNode) (ccResult : Option (List ℤ))
    (miResult : Option ℚ) (pep8 : ℕ × ℕ) : CodeMetrics :=
  match readResult with
  | none => createErrorMetrics filepath "Read Error"
  | some code => analyzeSource filepath code parseResult ccResult miResult pep8

end Analyzer

namespace Analyzer

/-- Helper: the let-chain of `_calculate_score` collapses to the
single-expression rubric shape. -/
theorem calculateScore_rubric_shape (m : RawMetrics) :
    calculateScore m = specRubricScore m := by
  unfold calculateScore specRubricScore
  split_ifs <;> ring_nf

/-- C1: the scorer is total and clamped: every raw-metrics input (any
rational values, including the all-zero bundle) yields a numeric score
`v` with `0 ≤ v ≤ 100`. -/
theorem calculateScore_total_and_clamped (m : RawMetrics) :
    0 ≤ calculateScore m ∧ calculateScore m ≤ 100 := by
  unfold calculateScore
  refine ⟨le_max_left 0 _, max_le (by norm_num) (min_le_left 100 _)⟩

/-- C2: `_calculate_score` coincides with the specification's 8-step
rubric on every input, and the showcase input (errors 0, warnings 0,
avg 3, max 3, maintainability 90, coverage 100, density 10) scores
exactly 100. -/
theorem calculateScore_eq_specRubric (m : RawMetrics) :
    calculateScore m = specRubricScore m ∧
    calculateScore ⟨0, 0, 3, 3, 90, 100, 10⟩ = 100 :=
  ⟨calculateScore_rubric_shape m, by norm_num [calculateScore]⟩

/-- C3 fails on the code: the stored metric fields are rounded to two
decimals *after* the score has been computed from the unrounded values,
and the maintainability bonus jumps by 5 at the threshold 80.  Two runs
with maintainability 80.001 and 79.996 store identical records in every
field — both round to 80.00 — yet score 85 versus 80; and neither
stored score is what the scorer returns on the record's own stored
fields. -/
theorem analyze_score_not_function_of_stored_fields :
    (analyzeSource "dir1/a.py" "x = 1" (some (.other [])) (some [])
        (some (80001/1000)) (15, 0) =
      { filename := "a.py", lines_of_code := 1, num_functions := 0,
        num_classes := 0, avg_complexity := 0, max_complexity := 0,
        maintainability_index := 80, pep8_errors := 15, pep8_warnings := 0,
        docstring_coverage := 100, comment_density := 0, score := 85 }) ∧
    (analyzeSource "dir2/a.py" "x = 1" (some (.other [])) (some [])
        (some (79996/1000)) (15, 0) =
      { filename := "a.py", lines_of_code := 1, num_functions := 0,
        num_classes := 0, avg_complexity := 0, max_complexity := 0,
        maintainability_index := 80, pep8_errors := 15, pep8_warnings := 0,
        docstring_coverage := 100, comment_density := 0, score := 80 }) ∧
    (85 : ℚ) ≠ 80 ∧
    calculateScore (rawMetricsOf 15 0 0 0 80 100 0) ≠ (85 : ℚ) ∧
    round2 (calculateScore (rawMetricsOf 15 0 0 0 80 100 0)) ≠ (85 : ℚ) := by
  refine ⟨?_, ?_, by norm_num, ?_, ?_⟩ <;>
    norm_num +decide [analyzeSource, calculateScore, rawMetricsOf,
      calculateDocstringCoverage, calculateCommentDensity, countFuncs,
      countClasses, walk, walkList, splitLines, splitLinesAux, isCommentLine,
      avgOrZero, maxOrZero, ccAvgOf, ccMaxOf, miOf, round2, roundHalfEven,
      basename, CodeMetrics.mk.injEq]

/-- C3 amended: the stored score is a deterministic pure function of
the *pre-rounding* raw measurements — it equals `round2` of the scorer
applied to the raw bundle the pipeline builds (errors, warnings,
unrounded average/maximum complexity, unrounded maintainability,
unrounded coverage and density).  The stored, rounded metric fields do
not in general determine it. -/
theorem analyze_score_eq_round2_score_of_raw (filepath code : String)
    (tree : PyNode) (ccResult : Option (List ℤ)) (miResult : Option ℚ)
    (pep8 : ℕ × ℕ) :
    (analyzeSource filepath code (some tree) ccResult miResult pep8).score =
      round2 (calculateScore
        (rawMetricsOf pep8.1 pep8.2 (ccAvgOf ccResult) (ccMaxOf ccResult)
          (miOf miResult)
          (calculateDocstringCoverage tree (countFuncs tree) (countClasses tree))
          (calculateCommentDensity code))) := rfl

/-- C4: when parsing fails — and likewise when the file cannot be
read — `analyze_file` returns the error record: all structural fields
(`lines_of_code`, `num_functions`, `num_classes`, `avg_complexity`,
`max_complexity`) are 0, `pep8_errors` is 100, and the score is 0; no
exception escapes the boundary (the embedding is a total function). -/
theorem analyze_parse_failure_error_record (filepath code : String)
    (ccResult : Option (List ℤ)) (miResult : Option ℚ) (pep8 : ℕ × ℕ)
    (parseResult : Option PyNode) :
    ((analyzeSource filepath code none ccResult miResult pep8).lines_of_code = 0 ∧
     (analyzeSource filepath code none ccResult miResult pep8).num_functions = 0 ∧
     (analyzeSource filepath code none ccResult miResult pep8).num_classes = 0 ∧
     (analyzeSource filepath code none ccResult miResult pep8).avg_complexity = 0 ∧
     (analyzeSource filepath code none ccResult miResult pep8).max_complexity = 0 ∧
     (analyzeSource filepath code none ccResult miResult pep8).pep8_errors = 100 ∧
     (analyzeSource filepath code none ccResult miResult pep8).score = 0) ∧
    ((analyzeFile filepath none parseResult ccResult miResult pep8).lines_of_code = 0 ∧
     (analyzeFile filepath none parseResult ccResult miResult pep8).num_functions = 0 ∧
     (analyzeFile filepath none parseResult ccResult miResult pep8).num_classes = 0 ∧
     (analyzeFile filepath none parseResult ccResult miResult pep8).avg_complexity = 0 ∧
     (analyzeFile filepath none parseResult ccResult miResult pep8).max_complexity = 0 ∧
     (analyzeFile filepath none parseResult ccResult miResult pep8).pep8_errors = 100 ∧
     (analyzeFile filepath none parseResult ccResult miResult pep8).score = 0) := by
  refine ⟨⟨rfl, rfl, rfl, rfl, rfl, rfl, rfl⟩, rfl, rfl, rfl, rfl, rfl, rfl, rfl⟩

/-- C5: monotonicity of the scorer.  Holding every other field fixed,
a larger `pep8_errors` never increases the score, and a larger
`docstring_coverage` never decreases it. -/
theorem calculateScore_monotone (m : RawMetrics) (a b : ℚ) (hab : a ≤ b) :
    calculateScore { m with pep8_errors := b } ≤
      calculateScore { m with pep8_errors := a } ∧
    calculateScore { m with docstring_coverage := a } ≤
      calculateScore { m with docstring_coverage := b } := by
  rw [calculateScore_rubric_shape, calculateScore_rubric_shape,
    calculateScore_rubric_shape, calculateScore_rubric_shape]
  unfold specRubricScore
  dsimp only
  constructor
  · gcongr
  · gcongr

/-- Witness for C5: the raw bundle (errors 3, warnings 4, avg 6,
max 12, maintainability 50, coverage 40, density 10), with the varied
field taking the values 1 and 2. -/
theorem calculateScore_monotone_witness :
    calculateScore ⟨2, 4, 6, 12, 50, 40, 10⟩ ≤
      calculateScore ⟨1, 4, 6, 12, 50, 40, 10⟩ ∧
    calculateScore ⟨3, 4, 6, 12, 50, 1, 10⟩ ≤
      calculateScore ⟨3, 4, 6, 12, 50, 2, 10⟩ :=
  calculateScore_monotone ⟨3, 4, 6, 12, 50, 40, 10⟩ 1 2 (by norm_num)

/-- Helper: `round2` fixes 100. -/
theorem round2_hundred : round2 100 = 100 := by
  norm_num [round2, roundHalfEven]

/-- C6: vacuous documentation coverage.  For every successfully parsed
source whose tree has zero function definitions and zero class
definitions, the computed coverage is exactly 100.0 — returned by the
zero-denominator guard, with no division performed — and the stored
record carries it. -/
theorem docstring_coverage_vacuous (filepath code : String) (tree : PyNode)
    (ccResult : Option (List ℤ)) (miResult : Option ℚ) (pep8 : ℕ × ℕ)
    (hf : countFuncs tree = 0) (hc : countClasses tree = 0) :
    calculateDocstringCoverage tree (countFuncs tree) (countClasses tree) = 100 ∧
    (analyzeSource filepath code (some tree) ccResult miResult pep8).docstring_coverage
      = 100 := by
  have h100 : calculateDocstringCoverage tree (countFuncs tree) (countClasses tree)
      = 100 := by
    rw [hf, hc]
    rfl
  exact ⟨h100, by simp only [analyzeSource, h100, round2_hundred]⟩

/-- Witness for C6 at the empty module tree. -/
theorem docstring_coverage_vacuous_witness :
    calculateDocstringCoverage (.other []) (countFuncs (.other []))
      (countClasses (.other [])) = 100 ∧
    (analyzeSource "w.py" "pass" (some (.other [])) (some [])
      (some 50) (0, 0)).docstring_coverage = 100 :=
  docstring_coverage_vacuous "w.py" "pass" (.other []) (some []) (some 50)
    (0, 0) (by decide) (by decide)

/-- C7: on the empty source text the pipeline yields comment density
0.0 and documentation coverage 100.0; both computations are total in
the embedding, with the zero-denominator branches producing these
values rather than a division error. -/
theorem empty_source_density_and_coverage :
    calculateCommentDensity "" = 0 ∧
    calculateDocstringCoverage (.other []) 0 0 = 100 ∧
    (analyzeSource "e.py" "" (some (.other [])) (some []) (some 50)
      (0, 0)).comment_density = 0 ∧
    (analyzeSource "e.py" "" (some (.other [])) (some []) (some 50)
      (0, 0)).docstring_coverage = 100 := by
  refine ⟨?_, ?_, ?_, ?_⟩ <;>
    norm_num +decide [analyzeSource, calculateDocstringCoverage,
      calculateCommentDensity, countFuncs, countClasses, walk, walkList,
      splitLines, splitLinesAux, isCommentLine, round2, roundHalfEven]

/-- Helper: splitting on newlines yields one more segment than there
are newline characters, regardless of the accumulator. -/
theorem splitLinesAux_length (cs : List Char) :
    ∀ acc, (splitLinesAux cs acc).length = cs.count '\n' + 1 := by
  induction cs with
  | nil => intro acc; simp [splitLinesAux]
  | cons c cs ih =>
      intro acc
      by_cases hc : c = '\n'
      · simp [splitLinesAux, hc, ih, List.count_cons]
      · simp [splitLinesAux, hc, ih, List.count_cons]

/-- Helper: the number of newline-delimited segments of a string is the
number of its newline characters plus one (so it is always positive,
and trailing/empty segments are counted). -/
theorem splitLines_length (code : String) :
    (splitLines code).length = code.data.count '\n' + 1 :=
  splitLinesAux_length code.data []

/-- C8: for every successfully parsed source, the stored
`lines_of_code` is the number of newline-delimited segments of the text
(equivalently, newline count plus one, so trailing and empty segments
are counted), and `num_functions` / `num_classes` are the counts of
function- and class-definition nodes anywhere in the walked tree —
nested definitions included, as the concrete doubly-nested tree below
shows. -/
theorem analyze_structural_counts (filepath code : String) (tree : PyNode)
    (ccResult : Option (List ℤ)) (miResult : Option ℚ) (pep8 : ℕ × ℕ) :
    (analyzeSource filepath code (some tree) ccResult miResult pep8).lines_of_code
        = (splitLines code).length ∧
    (splitLines code).length = code.data.count '\n' + 1 ∧
    (analyzeSource filepath code (some tree) ccResult miResult pep8).num_functions
        = ((walk tree).filter PyNode.isFunctionDef).length ∧
    (analyzeSource filepath code (some tree) ccResult miResult pep8).num_classes
        = ((walk tree).filter PyNode.isClassDef).length ∧
    countFuncs (.other [.functionDef none [.functionDef none [], .other []],
      .classDef none [.functionDef none []]]) = 3 ∧
    countClasses (.other [.functionDef none [.functionDef none [], .other []],
      .classDef none [.functionDef none []]]) = 1 :=
  ⟨rfl, splitLines_length code, rfl, rfl, by decide, by decide⟩

/-- C9: every success record has at least one line (splitting any text,
even the empty one, yields at least one segment), the error record has
`lines_of_code = 0`, and hence the error sentinel — `pep8_errors = 100`
with all structural fields 0 — is never produced by a successful
analysis. -/
theorem error_sentinel_unambiguous (filepath code : String) (tree : PyNode)
    (ccResult : Option (List ℤ)) (miResult : Option ℚ) (pep8 : ℕ × ℕ) :
    1 ≤ (analyzeSource filepath code (some tree) ccResult miResult pep8).lines_of_code ∧
    (analyzeSource filepath code none ccResult miResult pep8).lines_of_code = 0 ∧
    ¬((analyzeSource filepath code (some tree) ccResult miResult pep8).pep8_errors = 100 ∧
      (analyzeSource filepath code (some tree) ccResult miResult pep8).lines_of_code = 0 ∧
      (analyzeSource filepath code (some tree) ccResult miResult pep8).num_functions = 0 ∧
      (analyzeSource filepath code (some tree) ccResult miResult pep8).num_classes = 0 ∧
      (analyzeSource filepath code (some tree) ccResult miResult pep8).avg_complexity = 0 ∧
      (analyzeSource filepath code (some tree) ccResult miResult pep8).max_complexity = 0) := by
  have hpos : 1 ≤ (analyzeSource filepath code (some tree) ccResult miResult
      pep8).lines_of_code := by
    show 1 ≤ (splitLines code).length
    rw [splitLines_length]
    omega
  refine ⟨hpos, rfl, fun h => ?_⟩
  omega

/-- Helper: the entities counted into the coverage numerator — walked
nodes that are a function or class definition and carry a non-empty
docstring — are at most the function count plus the class count over
the same node list. -/
theorem filter_doc_length_le {α : Type} (f g p : α → Bool) (l : List α) :
    (l.filter (fun n => (f n || g n) && p n)).length ≤
      (l.filter f).length + (l.filter g).length := by
  induction l with
  | nil => simp
  | cons n ns ih =>
      simp only [List.filter_cons]
      cases hf : f n <;> cases hg : g n <;> cases hp : p n <;>
        simp [hf, hg, hp] <;> omega

/-- C10: both percentage metrics are inherently bounded: for every
source text `0 ≤ comment_density ≤ 100` (comment-only lines are a
subset of all counted lines), and for every tree
`0 ≤ docstring_coverage ≤ 100` when the denominator is the function
and class count of that same tree — the density can never exceed 100,
despite the data model's hedge that it might. -/
theorem percentage_metrics_bounded (code : String) (tree : PyNode) :
    (0 ≤ calculateCommentDensity code ∧ calculateCommentDensity code ≤ 100) ∧
    (0 ≤ calculateDocstringCoverage tree (countFuncs tree) (countClasses tree) ∧
     calculateDocstringCoverage tree (countFuncs tree) (countClasses tree) ≤ 100) := by
  constructor
  · unfold calculateCommentDensity
    by_cases h : (splitLines code).length = 0
    · simp [h]
    · have hle : (((splitLines code).filter isCommentLine).length : ℚ)
          ≤ ((splitLines code).length : ℚ) := by
        exact_mod_cast List.length_filter_le _ _
      have hpos : (0 : ℚ) < ((splitLines code).length : ℚ) := by
        exact_mod_cast Nat.pos_of_ne_zero h
      simp only [h, if_false]
      constructor
      · positivity
      · rw [div_mul_eq_mul_div, div_le_iff₀ hpos]
        linarith
  · unfold calculateDocstringCoverage countFuncs countClasses
    by_cases h : ((walk tree).filter PyNode.isFunctionDef).length
        + ((walk tree).filter PyNode.isClassDef).length = 0
    · simp [h]
    · have hle : ((((walk tree).filter
            (fun n => (n.isFunctionDef || n.isClassDef) && n.hasNonemptyDoc)).length : ℚ))
          ≤ ((((walk tree).filter PyNode.isFunctionDef).length
              + ((walk tree).filter PyNode.isClassDef).length : ℕ) : ℚ) := by
        exact_mod_cast filter_doc_length_le PyNode.isFunctionDef
          PyNode.isClassDef PyNode.hasNonemptyDoc (walk tree)
      have hpos : (0 : ℚ) < ((((walk tree).filter PyNode.isFunctionDef).length
          + ((walk tree).filter PyNode.isClassDef).length : ℕ) : ℚ) := by
        exact_mod_cast Nat.pos_of_ne_zero h
      simp only [h, if_false]
      constructor
      · positivity
      · rw [div_mul_eq_mul_div, div_le_iff₀ hpos]
        linarith

end Analyzer
